import Mathlib

/-!
Shallow embedding of `src/plugin.rs` of the `bevy_svg` plugin: the two
systems `svg_mesh_linker` (asset-event driven) and `set_svg_meshes`
(late binding on `Changed<Handle<Svg>>`), together with the parts of the
engine state they touch (the `Assets<Svg>` store, the `Assets<Mesh>`
store, and the entities carrying a `Handle<Svg>` with optional
`Mesh2dHandle` / `Handle<Mesh>` attachments).
-/

/-- A `Handle<Mesh>`: stable opaque identifier of a mesh resource. -/
structure MeshHandle where
  id : Nat
deriving DecidableEq, Repr

/-- A `Handle<Svg>`: stable opaque identifier of an svg asset. -/
structure SvgHandle where
  id : Nat
deriving DecidableEq, Repr

/-- The `Svg` asset, as used by `plugin.rs`: its display name (`svg.name`)
and the handle of its generated mesh (`svg.mesh`). -/
structure Svg where
  name : String
  mesh : MeshHandle
deriving DecidableEq, Repr

/-- The `Assets<Svg>` resource: association of svg handles to svg assets. -/
abbrev SvgAssets := List (SvgHandle × Svg)

/-- `Assets::<Svg>::get`: look up the asset for a handle, `none` when absent. -/
def SvgAssets.get (a : SvgAssets) (h : SvgHandle) : Option Svg :=
  (List.find? (fun p => p.1 = h) a).map Prod.snd

/-- An entity as visible to the two systems: its id, its `Handle<Svg>`
component, its optional `Mesh2dHandle` and `Handle<Mesh>` attachment
components, whether its `Handle<Svg>` component was added or changed this
tick (the `Changed<Handle<Svg>>` query filter), and its optional parent
in the hierarchy (for `despawn_recursive`). -/
structure SvgEntity where
  id : Nat
  svgHandle : SvgHandle
  mesh2d : Option MeshHandle
  mesh3d : Option MeshHandle
  changed : Bool
  parent : Option Nat
deriving DecidableEq, Repr

/-- The engine state the two systems read and write. -/
structure World where
  svgs : SvgAssets
  meshes : List MeshHandle
  entities : List SvgEntity
deriving DecidableEq, Repr

/-- `AssetEvent<Svg>`: the asset lifecycle events consumed by
`svg_mesh_linker`. -/
inductive AssetEvent where
  | created (handle : SvgHandle)
  | modified (handle : SvgHandle)
  | removed (handle : SvgHandle)
deriving DecidableEq, Repr

/-- The handle an asset event concerns. -/
def AssetEvent.handle : AssetEvent → SvgHandle
  | .created h => h
  | .modified h => h
  | .removed h => h

/-- Primitive effects performed by the `Modified` arm of
`svg_mesh_linker`, in execution order: writing an attachment component
and removing a mesh from `Assets<Mesh>`. -/
inductive MeshAction where
  | setMesh2d (m : MeshHandle)
  | setMesh3d (m : MeshHandle)
  | removeMesh (m : MeshHandle)
deriving DecidableEq, Repr

/-- Body of `set_svg_meshes` for one queried entity: when its
`Handle<Svg>` component changed and the asset is loaded, repoint the 2d
and 3d attachments that differ from `svg.mesh`; otherwise leave the
entity alone (`// If the svg doesn't exist yet, wait for a
AssetEvent::Created event`). -/
def setEntityMeshes (svgs : SvgAssets) (e : SvgEntity) : SvgEntity :=
  if e.changed then
    match svgs.get e.svgHandle with
    | some svg =>
        { e with
          mesh2d := e.mesh2d.map (fun m => if m ≠ svg.mesh then svg.mesh else m),
          mesh3d := e.mesh3d.map (fun m => if m ≠ svg.mesh then svg.mesh else m) }
    | none => e
  else e

/-- The `set_svg_meshes` system: the per-entity body applied over the
`Changed<Handle<Svg>>` query. It borrows `Assets<Svg>` immutably and
touches neither `Assets<Mesh>` nor the set of entities. -/
def set_svg_meshes (w : World) : World :=
  { w with entities := w.entities.map (setEntityMeshes w.svgs) }

/-- Body of the `Modified` arm of `svg_mesh_linker` for one matching
entity: for each present attachment that differs from `svg.mesh`,
install the new handle and then remove the superseded mesh from
`Assets<Mesh>`. Returns the updated entity, the updated mesh store, and
the trace of primitive effects in execution order. -/
def modifyEntity (svg : Svg) (e : SvgEntity) (meshes : List MeshHandle) :
    SvgEntity × List MeshHandle × List MeshAction :=
  let r2 :
      Option MeshHandle × List MeshHandle × List MeshAction :=
    match e.mesh2d with
    | some old =>
        if old ≠ svg.mesh then
          (some svg.mesh, meshes.erase old,
            [MeshAction.setMesh2d svg.mesh, MeshAction.removeMesh old])
        else (some old, meshes, [])
    | none => (none, meshes, [])
  let r3 :
      Option MeshHandle × List MeshHandle × List MeshAction :=
    match e.mesh3d with
    | some old =>
        if old ≠ svg.mesh then
          (some svg.mesh, r2.2.1.erase old,
            [MeshAction.setMesh3d svg.mesh, MeshAction.removeMesh old])
        else (some old, r2.2.1, [])
    | none => (none, r2.2.1, [])
  ({ e with mesh2d := r2.1, mesh3d := r3.1 }, r3.2.1, r2.2.2 ++ r3.2.2)

/-- The `Modified` arm's loop over the query: entities whose
`Handle<Svg>` equals the event's handle are updated in order, threading
the mesh store through the removals. -/
def modifyEntities (svg : Svg) (h : SvgHandle) :
    List SvgEntity → List MeshHandle → List SvgEntity × List MeshHandle
  | [], ms => ([], ms)
  | e :: rest, ms =>
    if e.svgHandle = h then
      let r := modifyEntity svg e ms
      let t := modifyEntities svg h rest r.2.1
      (r.1 :: t.1, t.2)
    else
      let t := modifyEntities svg h rest ms
      (e :: t.1, t.2)

/-- State threaded through `svg_mesh_linker`'s event loop: the mesh
store, the entities, and the despawn commands queued so far
(`Commands` are deferred until the stage end). -/
structure LinkerState where
  meshes : List MeshHandle
  entities : List SvgEntity
  despawnRoots : List Nat
deriving DecidableEq, Repr

/-- One iteration of `svg_mesh_linker`'s event loop. `none` models the
panic of `svgs.get(handle).unwrap()`: it is reached exactly when some
queried entity references the event's handle while the asset is absent.
`Created` overwrites present attachments with `svg.mesh`; `Modified`
runs `modifyEntities`; `Removed` queues `despawn_recursive` commands for
every entity referencing the handle. -/
def applyEvent (svgs : SvgAssets) (st : LinkerState) (ev : AssetEvent) :
    Option LinkerState :=
  match ev with
  | .created h =>
    if st.entities.any (fun e => e.svgHandle = h) then
      match svgs.get h with
      | none => none
      | some svg =>
          some { st with entities := st.entities.map (fun e =>
            if e.svgHandle = h then
              { e with mesh2d := e.mesh2d.map (fun _ => svg.mesh),
                       mesh3d := e.mesh3d.map (fun _ => svg.mesh) }
            else e) }
    else some st
  | .modified h =>
    if st.entities.any (fun e => e.svgHandle = h) then
      match svgs.get h with
      | none => none
      | some svg =>
          let r := modifyEntities svg h st.entities st.meshes
          some { st with entities := r.1, meshes := r.2 }
    else some st
  | .removed h =>
    some { st with despawnRoots :=
      st.despawnRoots ++
        (st.entities.filter (fun e => e.svgHandle = h)).map (fun e => e.id) }

/-- The `for event in svg_events.iter()` loop: events are consumed one
by one in arrival order; a panic aborts the whole run. -/
def processEvents (svgs : SvgAssets) :
    List AssetEvent → LinkerState → Option LinkerState
  | [], st => some st
  | ev :: rest, st =>
    match applyEvent svgs st ev with
    | none => none
    | some st' => processEvents svgs rest st'

/-- The chain of ancestor ids of entity id `i` following `parent`
pointers, cut off by fuel (the hierarchy of a finite world is finite). -/
def ancestorChain (entities : List SvgEntity) : Nat → Nat → List Nat
  | 0, _ => []
  | fuel + 1, i =>
    match List.find? (fun e => e.id = i) entities with
    | some e =>
      match e.parent with
      | some p => p :: ancestorChain entities fuel p
      | none => []
    | none => []

/-- Whether `despawn_recursive` on the queued roots removes entity `e`:
it is a root itself or a descendant of a root. -/
def inDespawnSet (entities : List SvgEntity) (roots : List Nat)
    (e : SvgEntity) : Bool :=
  decide (e.id ∈ roots) ||
    (ancestorChain entities entities.length e.id).any (fun a => decide (a ∈ roots))

/-- Flushing the queued `despawn_recursive` commands at the stage end:
every root and every descendant of a root disappears. -/
def applyDespawns (entities : List SvgEntity) (roots : List Nat) :
    List SvgEntity :=
  entities.filter (fun e => !(inDespawnSet entities roots e))

/-- The event-processing core of the `svg_mesh_linker` system: consume
the queued events against the world, returning the updated world and
the queued despawn roots (still to be flushed). -/
def runLinker (events : List AssetEvent) (w : World) :
    Option (World × List Nat) :=
  match processEvents w.svgs events ⟨w.meshes, w.entities, []⟩ with
  | none => none
  | some st =>
      some ({ w with meshes := st.meshes, entities := st.entities },
        st.despawnRoots)

/-- The `svg_mesh_linker` system followed by the command flush: process
all queued asset events, then apply the queued recursive despawns. -/
def svg_mesh_linker (events : List AssetEvent) (w : World) : Option World :=
  match runLinker events w with
  | none => none
  | some (w1, roots) =>
      some { w1 with entities := applyDespawns w1.entities roots }

/-- One `Stage::SVG` tick: both systems run in a parallel stage with no
ordering guarantee between them (`lf` selects which runs first), and
the `Commands` queued by `svg_mesh_linker` are flushed at the stage
end. -/
def tick (events : List AssetEvent) (lf : Bool) (w : World) : Option World :=
  if lf then
    match runLinker events w with
    | none => none
    | some (w1, roots) =>
        let w2 := set_svg_meshes w1
        some { w2 with entities := applyDespawns w2.entities roots }
  else
    match runLinker events (set_svg_meshes w) with
    | none => none
    | some (w2, roots) =>
        some { w2 with entities := applyDespawns w2.entities roots }

/-- An entity is in sync: when the svg asset it references is loaded,
every present attachment equals the asset's current generated mesh. -/
def goodEntity (svgs : SvgAssets) (e : SvgEntity) : Bool :=
  match svgs.get e.svgHandle with
  | some svg =>
      (e.mesh2d == none || e.mesh2d == some svg.mesh) &&
      (e.mesh3d == none || e.mesh3d == some svg.mesh)
  | none => true

/-- Pointwise evolution of one entity across one pass: identity, svg
reference, changed flag, parent and presence of the attachment
components are preserved, and the entity is either untouched or left in
sync with the asset store. -/
def evolvesTo (svgs : SvgAssets) (e e' : SvgEntity) : Prop :=
  e'.id = e.id ∧ e'.svgHandle = e.svgHandle ∧ e'.changed = e.changed ∧
  e'.parent = e.parent ∧ (e'.mesh2d = none ↔ e.mesh2d = none) ∧
  (e'.mesh3d = none ↔ e.mesh3d = none) ∧
  (e' = e ∨ goodEntity svgs e' = true)

/-- Pointwise evolution across a pass that in addition repoints every
entity referencing the handle `hd`. -/
def coveredStep (svgs : SvgAssets) (hd : SvgHandle) (e e' : SvgEntity) : Prop :=
  evolvesTo svgs e e' ∧ (e.svgHandle = hd → goodEntity svgs e' = true)

theorem goodEntity_iff (svgs : SvgAssets) (e : SvgEntity) :
    goodEntity svgs e = true ↔
      ∀ svg, svgs.get e.svgHandle = some svg →
        (e.mesh2d = none ∨ e.mesh2d = some svg.mesh) ∧
        (e.mesh3d = none ∨ e.mesh3d = some svg.mesh) := by
  unfold goodEntity
  cases hg : svgs.get e.svgHandle with
  | none => simp
  | some svg => simp

theorem applyDespawns_nil (l : List SvgEntity) : applyDespawns l [] = l := by
  unfold applyDespawns
  apply List.filter_eq_self.mpr
  intro e _
  simp [inDespawnSet]

theorem mem_applyDespawns {l : List SvgEntity} {roots : List Nat}
    {e : SvgEntity} (h : e ∈ applyDespawns l roots) :
    e ∈ l ∧ e.id ∉ roots := by
  unfold applyDespawns at h
  rcases List.mem_filter.mp h with ⟨h1, h2⟩
  refine ⟨h1, fun hmem => ?_⟩
  simp [inDespawnSet, hmem] at h2

/-- C10: the late-binding system (`set_svg_meshes`) never removes any
mesh asset from `Assets<Mesh>` and never touches `Assets<Svg>`: it only
rewrites attachment components of queried entities. -/
theorem c10_late_binding_keeps_mesh_store (w : World) :
    (set_svg_meshes w).meshes = w.meshes ∧ (set_svg_meshes w).svgs = w.svgs :=
  ⟨rfl, rfl⟩

/-- C5 counterexample: a world with one svg document (generated mesh
`⟨10⟩`), the mesh present in `Assets<Mesh>`, and one entity bound to the
document. After the `Removed` event is fully processed the entity is
despawned, but the generated mesh `⟨10⟩` is still in the mesh store: the
`Removed` arm never calls `meshes.remove`. -/
theorem c5_counterexample :
    svg_mesh_linker [AssetEvent.removed ⟨0⟩]
        ⟨[(⟨0⟩, ⟨"doc.svg", ⟨10⟩⟩)], [⟨10⟩],
          [⟨1, ⟨0⟩, some ⟨10⟩, none, false, none⟩]⟩ =
      some ⟨[(⟨0⟩, ⟨"doc.svg", ⟨10⟩⟩)], [⟨10⟩], []⟩ ∧
    (⟨10⟩ : MeshHandle) ∈
      (⟨[(⟨0⟩, ⟨"doc.svg", ⟨10⟩⟩)], [⟨10⟩], []⟩ : World).meshes := by
  constructor
  · rfl
  · simp

/-- C5 amended: processing a `Removed` event despawns the entities
referencing the handle but leaves both the mesh store and the svg store
untouched: the generated mesh is not released by this system. -/
theorem c5_amended_thm (w w' : World) (h : SvgHandle)
    (hrun : svg_mesh_linker [AssetEvent.removed h] w = some w') :
    w'.meshes = w.meshes ∧ w'.svgs = w.svgs := by
  simp only [svg_mesh_linker, runLinker, processEvents, applyEvent] at hrun
  rcases Option.some.injEq .. ▸ hrun with h'
  cases h'
  exact ⟨rfl, rfl⟩

/-- Witness for the amended C5 at a concrete world. -/
theorem c5_amended_witness :
    (⟨[(⟨0⟩, ⟨"doc.svg", ⟨10⟩⟩)], [⟨10⟩], []⟩ : World).meshes =
        (⟨[(⟨0⟩, ⟨"doc.svg", ⟨10⟩⟩)], [⟨10⟩],
          [⟨1, ⟨0⟩, some ⟨10⟩, none, false, none⟩]⟩ : World).meshes ∧
      (⟨[(⟨0⟩, ⟨"doc.svg", ⟨10⟩⟩)], [⟨10⟩], []⟩ : World).svgs =
        (⟨[(⟨0⟩, ⟨"doc.svg", ⟨10⟩⟩)], [⟨10⟩],
          [⟨1, ⟨0⟩, some ⟨10⟩, none, false, none⟩]⟩ : World).svgs :=
  c5_amended_thm _ _ ⟨0⟩ (by decide)

/-- C6 counterexample: a world whose svg store is empty while one entity
references handle `⟨0⟩`. Delivering `Created` (or `Modified`) for that
unknown handle makes `svg_mesh_linker` hit `svgs.get(handle).unwrap()`
on a `None` and panic (modelled by `none`): the update crashes instead
of dropping the stale binding with a debug trace. -/
theorem c6_counterexample :
    svg_mesh_linker [AssetEvent.created ⟨0⟩]
        ⟨[], [], [⟨1, ⟨0⟩, some ⟨10⟩, none, false, none⟩]⟩ = none ∧
    svg_mesh_linker [AssetEvent.modified ⟨0⟩]
        ⟨[], [], [⟨1, ⟨0⟩, some ⟨10⟩, none, false, none⟩]⟩ = none :=
  ⟨rfl, rfl⟩

/-- C6 amended: on a `Created` or `Modified` event whose handle has no
asset in the store, the system leaves the world unchanged when no entity
references the handle, and panics (`svgs.get(handle).unwrap()` on
`None`) as soon as some entity references it — there is no debug-trace
path that drops the stale binding. -/
theorem c6_amended_thm (w : World) (h : SvgHandle)
    (hget : w.svgs.get h = none) :
    ((∀ e ∈ w.entities, e.svgHandle ≠ h) →
        svg_mesh_linker [AssetEvent.created h] w = some w ∧
        svg_mesh_linker [AssetEvent.modified h] w = some w) ∧
    ((∃ e ∈ w.entities, e.svgHandle = h) →
        svg_mesh_linker [AssetEvent.created h] w = none ∧
        svg_mesh_linker [AssetEvent.modified h] w = none) := by
  constructor
  · intro hno
    have ha : w.entities.any (fun e => e.svgHandle = h) = false := by
      simp only [List.any_eq_false, decide_eq_true_eq]
      exact hno
    constructor <;>
      simp [svg_mesh_linker, runLinker, processEvents, applyEvent, ha,
        applyDespawns_nil]
  · rintro ⟨e, he, heq⟩
    have ha : w.entities.any (fun e => e.svgHandle = h) = true := by
      simp only [List.any_eq_true, decide_eq_true_eq]
      exact ⟨e, he, heq⟩
    constructor <;>
      simp [svg_mesh_linker, runLinker, processEvents, applyEvent, ha, hget]

/-- Witness for the amended C6: in a world with one entity referencing
handle `⟨1⟩` and an empty svg store, a `Created` event for the unknown
handle `⟨1⟩` panics. -/
theorem c6_amended_witness :
    svg_mesh_linker [AssetEvent.created ⟨1⟩]
        ⟨[], [], [⟨1, ⟨1⟩, some ⟨10⟩, none, false, none⟩]⟩ = none ∧
    svg_mesh_linker [AssetEvent.modified ⟨1⟩]
        ⟨[], [], [⟨1, ⟨1⟩, some ⟨10⟩, none, false, none⟩]⟩ = none :=
  (c6_amended_thm ⟨[], [], [⟨1, ⟨1⟩, some ⟨10⟩, none, false, none⟩]⟩ ⟨1⟩
      (by decide)).2 ⟨⟨1, ⟨1⟩, some ⟨10⟩, none, false, none⟩, by decide, by decide⟩

/-- C2: after a `Removed` event for a handle is fully processed
(including the deferred `despawn_recursive` commands), no entity
referencing the removed handle remains in the world. -/
theorem c2_cascading_removal (w w' : World) (h : SvgHandle)
    (hrun : svg_mesh_linker [AssetEvent.removed h] w = some w') :
    ∀ e ∈ w'.entities, e.svgHandle ≠ h := by
  simp only [svg_mesh_linker, runLinker, processEvents, applyEvent,
    Option.some.injEq] at hrun
  subst hrun
  intro e he heq
  obtain ⟨hmem, hnotin⟩ := mem_applyDespawns he
  apply hnotin
  have hin : e.id ∈ (w.entities.filter
      (fun x => decide (x.svgHandle = h))).map (fun e => e.id) :=
    List.mem_map.mpr ⟨e, List.mem_filter.mpr ⟨hmem, by simp [heq]⟩, rfl⟩
  simpa using hin

/-- Witness for C2: a world with two entities, one bound to the removed
handle `⟨0⟩` and one bound to `⟨1⟩`; the survivor does not reference the
removed handle. -/
theorem c2_witness :
    (⟨2, ⟨1⟩, none, none, false, none⟩ : SvgEntity).svgHandle ≠ ⟨0⟩ :=
  c2_cascading_removal
    ⟨[], [], [⟨1, ⟨0⟩, some ⟨10⟩, none, false, none⟩,
      ⟨2, ⟨1⟩, none, none, false, none⟩]⟩
    ⟨[], [], [⟨2, ⟨1⟩, none, none, false, none⟩]⟩ ⟨0⟩ (by decide)
    ⟨2, ⟨1⟩, none, none, false, none⟩ (by decide)

/-- C8: `svg_mesh_linker` consumes the queued asset events strictly in
arrival order — processing a concatenated queue equals processing the
first batch and then processing the second batch from the resulting
state. -/
theorem c8_events_in_order (svgs : SvgAssets) (es₁ es₂ : List AssetEvent)
    (st st₁ : LinkerState) (h1 : processEvents svgs es₁ st = some st₁) :
    processEvents svgs (es₁ ++ es₂) st = processEvents svgs es₂ st₁ := by
  induction es₁ generalizing st with
  | nil =>
    simp only [processEvents, Option.some.injEq] at h1
    subst h1
    rfl
  | cons ev rest ih =>
    simp only [List.cons_append, processEvents] at h1 ⊢
    cases hap : applyEvent svgs st ev with
    | none => simp [hap] at h1
    | some st' =>
      simp only [hap] at h1 ⊢
      exact ih st' h1

/-- Witness for C8 at a concrete queue: a `Removed` batch followed by a
`Created` batch for another handle. -/
theorem c8_witness :
    processEvents [] ([AssetEvent.removed ⟨0⟩] ++ [AssetEvent.created ⟨1⟩])
        ⟨[], [], []⟩ =
      processEvents [] [AssetEvent.created ⟨1⟩] ⟨[], [], []⟩ :=
  c8_events_in_order [] [AssetEvent.removed ⟨0⟩] [AssetEvent.created ⟨1⟩]
    ⟨[], [], []⟩ ⟨[], [], []⟩ (by decide)

theorem repoint_map (svg : Svg) (o : Option MeshHandle) :
    o.map (fun m => if m ≠ svg.mesh then svg.mesh else m) =
      o.map (fun _ => svg.mesh) := by
  cases o with
  | none => rfl
  | some m => by_cases hm : m = svg.mesh <;> simp [hm]

theorem modifyEntity_fields (svg : Svg) (e : SvgEntity) (ms : List MeshHandle) :
    (modifyEntity svg e ms).1.id = e.id ∧
    (modifyEntity svg e ms).1.svgHandle = e.svgHandle ∧
    (modifyEntity svg e ms).1.changed = e.changed ∧
    (modifyEntity svg e ms).1.parent = e.parent ∧
    ((modifyEntity svg e ms).1.mesh2d = none ∨
      (modifyEntity svg e ms).1.mesh2d = some svg.mesh) ∧
    ((modifyEntity svg e ms).1.mesh3d = none ∨
      (modifyEntity svg e ms).1.mesh3d = some svg.mesh) ∧
    ((modifyEntity svg e ms).1.mesh2d = none ↔ e.mesh2d = none) ∧
    ((modifyEntity svg e ms).1.mesh3d = none ↔ e.mesh3d = none) := by
  unfold modifyEntity
  cases h2 : e.mesh2d with
  | none =>
    cases h3 : e.mesh3d with
    | none => simp
    | some o3 => by_cases hne3 : o3 = svg.mesh <;> simp [hne3]
  | some o2 =>
    by_cases hne2 : o2 = svg.mesh
    · cases h3 : e.mesh3d with
      | none => simp [hne2]
      | some o3 => by_cases hne3 : o3 = svg.mesh <;> simp [hne2, hne3]
    · cases h3 : e.mesh3d with
      | none => simp [hne2]
      | some o3 => by_cases hne3 : o3 = svg.mesh <;> simp [hne2, hne3]

theorem modifyEntities_ok (svg : Svg) (h : SvgHandle) (es : List SvgEntity) :
    ∀ (ms : List MeshHandle) (e' : SvgEntity),
      e' ∈ (modifyEntities svg h es ms).1 → e'.svgHandle = h →
        (e'.mesh2d = none ∨ e'.mesh2d = some svg.mesh) ∧
        (e'.mesh3d = none ∨ e'.mesh3d = some svg.mesh) := by
  induction es with
  | nil => intro ms e' him; simp [modifyEntities] at him
  | cons e rest ih =>
    intro ms e' him heq
    by_cases he : e.svgHandle = h
    · simp only [modifyEntities, he, if_true] at him
      rcases List.mem_cons.mp him with rfl | hmem
      · have hf := modifyEntity_fields svg e ms
        exact ⟨hf.2.2.2.2.1, hf.2.2.2.2.2.1⟩
      · exact ih _ _ hmem heq
    · simp only [modifyEntities, he, if_false] at him
      rcases List.mem_cons.mp him with rfl | hmem
      · exact absurd heq he
      · exact ih _ _ hmem heq

/-- C1: after a `Modified` event for a handle whose asset carries the
generated mesh `svg.mesh` is fully processed, every surviving entity
referencing that handle has both of its present attachments equal to
`svg.mesh` — no entity retains the pre-modification mesh handle. -/
theorem c1_no_stale_after_modified (w w' : World) (h : SvgHandle) (svg : Svg)
    (hget : w.svgs.get h = some svg)
    (hrun : svg_mesh_linker [AssetEvent.modified h] w = some w') :
    ∀ e ∈ w'.entities, e.svgHandle = h →
      (e.mesh2d = none ∨ e.mesh2d = some svg.mesh) ∧
      (e.mesh3d = none ∨ e.mesh3d = some svg.mesh) := by
  intro e he heq
  simp only [svg_mesh_linker, runLinker, processEvents, applyEvent] at hrun
  by_cases ha : w.entities.any (fun x => x.svgHandle = h) = true
  · simp only [ha, if_true, hget] at hrun
    simp only [Option.some.injEq] at hrun
    subst hrun
    simp only [applyDespawns_nil] at he
    exact modifyEntities_ok svg h w.entities w.meshes e he heq
  · simp only [ha] at hrun
    simp only [Bool.not_eq_true] at ha
    simp only [ha, Bool.false_eq_true, if_false, Option.some.injEq] at hrun
    subst hrun
    simp only [applyDespawns_nil] at he
    have hpos : w.entities.any (fun x => decide (x.svgHandle = h)) = true :=
      List.any_eq_true.mpr ⟨e, he, decide_eq_true heq⟩
    rw [ha] at hpos
    exact absurd hpos (by simp)

/-- Witness for C1: one entity bound to handle `⟨0⟩` with the old mesh
`⟨10⟩`; after the `Modified` event it carries the new generated mesh
`⟨11⟩`. -/
theorem c1_witness :
    ((⟨1, ⟨0⟩, some ⟨11⟩, none, false, none⟩ : SvgEntity).mesh2d = none ∨
      (⟨1, ⟨0⟩, some ⟨11⟩, none, false, none⟩ : SvgEntity).mesh2d =
        some (⟨"doc.svg", ⟨11⟩⟩ : Svg).mesh) ∧
    ((⟨1, ⟨0⟩, some ⟨11⟩, none, false, none⟩ : SvgEntity).mesh3d = none ∨
      (⟨1, ⟨0⟩, some ⟨11⟩, none, false, none⟩ : SvgEntity).mesh3d =
        some (⟨"doc.svg", ⟨11⟩⟩ : Svg).mesh) :=
  c1_no_stale_after_modified
    ⟨[(⟨0⟩, ⟨"doc.svg", ⟨11⟩⟩)], [⟨10⟩, ⟨11⟩],
      [⟨1, ⟨0⟩, some ⟨10⟩, none, false, none⟩]⟩
    ⟨[(⟨0⟩, ⟨"doc.svg", ⟨11⟩⟩)], [⟨11⟩],
      [⟨1, ⟨0⟩, some ⟨11⟩, none, false, none⟩]⟩
    ⟨0⟩ ⟨"doc.svg", ⟨11⟩⟩ (by decide) (by decide)
    ⟨1, ⟨0⟩, some ⟨11⟩, none, false, none⟩ (by decide) (by decide)

/-- C3: the late-binding pass. For every entity in the world (the query
result carries it through `setEntityMeshes`): when its `Handle<Svg>`
component was added or changed and the referenced document is loaded,
both present attachments are repointed to the document's current
generated mesh; when the document is not yet loaded, the entity is left
completely unchanged. -/
theorem c3_late_binding (w : World) (e : SvgEntity) (he : e ∈ w.entities) :
    setEntityMeshes w.svgs e ∈ (set_svg_meshes w).entities ∧
    (∀ svg, e.changed = true → w.svgs.get e.svgHandle = some svg →
      (setEntityMeshes w.svgs e).mesh2d = e.mesh2d.map (fun _ => svg.mesh) ∧
      (setEntityMeshes w.svgs e).mesh3d = e.mesh3d.map (fun _ => svg.mesh)) ∧
    (w.svgs.get e.svgHandle = none → setEntityMeshes w.svgs e = e) := by
  refine ⟨List.mem_map_of_mem _ he, ?_, ?_⟩
  · intro svg hch hget
    unfold setEntityMeshes
    simp only [hch, if_true, hget]
    exact ⟨repoint_map svg e.mesh2d, repoint_map svg e.mesh3d⟩
  · intro hget
    unfold setEntityMeshes
    cases hch : e.changed
    · simp
    · simp [hget]

/-- Witness for C3: an entity whose reference component just changed
while the document is already loaded acquires mesh `⟨11⟩`. -/
theorem c3_witness :
    (setEntityMeshes
        (⟨[(⟨0⟩, ⟨"doc.svg", ⟨11⟩⟩)], [⟨11⟩],
          [⟨1, ⟨0⟩, some ⟨10⟩, none, true, none⟩]⟩ : World).svgs
        ⟨1, ⟨0⟩, some ⟨10⟩, none, true, none⟩).mesh2d =
      (⟨1, ⟨0⟩, some ⟨10⟩, none, true, none⟩ : SvgEntity).mesh2d.map
        (fun _ => (⟨"doc.svg", ⟨11⟩⟩ : Svg).mesh) ∧
    (setEntityMeshes
        (⟨[(⟨0⟩, ⟨"doc.svg", ⟨11⟩⟩)], [⟨11⟩],
          [⟨1, ⟨0⟩, some ⟨10⟩, none, true, none⟩]⟩ : World).svgs
        ⟨1, ⟨0⟩, some ⟨10⟩, none, true, none⟩).mesh3d =
      (⟨1, ⟨0⟩, some ⟨10⟩, none, true, none⟩ : SvgEntity).mesh3d.map
        (fun _ => (⟨"doc.svg", ⟨11⟩⟩ : Svg).mesh) :=
  (c3_late_binding
      ⟨[(⟨0⟩, ⟨"doc.svg", ⟨11⟩⟩)], [⟨11⟩],
        [⟨1, ⟨0⟩, some ⟨10⟩, none, true, none⟩]⟩
      ⟨1, ⟨0⟩, some ⟨10⟩, none, true, none⟩ (by decide)).2.1
    ⟨"doc.svg", ⟨11⟩⟩ (by decide) (by decide)

/-- C4: in the `Modified` arm's per-entity body, when the 2d attachment
differs from the new generated mesh, the very first effect is installing
the new handle and only the following effect releases the old mesh from
the store; no second write to the 2d attachment happens. The 3d
attachment behaves the same way (its install immediately precedes its
release, after the 2d effects). -/
theorem c4_install_before_release (svg : Svg) (e : SvgEntity)
    (ms : List MeshHandle) (old : MeshHandle)
    (h2 : e.mesh2d = some old) (hne : old ≠ svg.mesh) :
    (modifyEntity svg e ms).1.mesh2d = some svg.mesh ∧
    (∃ rest, (modifyEntity svg e ms).2.2 =
        MeshAction.setMesh2d svg.mesh :: MeshAction.removeMesh old :: rest ∧
      ∀ m, MeshAction.setMesh2d m ∉ rest) ∧
    (∀ old3, e.mesh3d = some old3 → old3 ≠ svg.mesh →
      (modifyEntity svg e ms).1.mesh3d = some svg.mesh ∧
      ∃ pre, (modifyEntity svg e ms).2.2 =
          pre ++ [MeshAction.setMesh3d svg.mesh, MeshAction.removeMesh old3] ∧
        ∀ m, MeshAction.setMesh3d m ∉ pre) := by
  have hne' : ¬(old = svg.mesh) := hne
  cases h3 : e.mesh3d with
  | none =>
    refine ⟨?_, ⟨[], ?_, by simp⟩, ?_⟩
    · simp [modifyEntity, h2, h3, hne']
    · simp [modifyEntity, h2, h3, hne']
    · intro old3 h3' _
      exact absurd h3' (by simp)
  | some o3 =>
    by_cases hne3 : o3 = svg.mesh
    · refine ⟨?_, ⟨[], ?_, by simp⟩, ?_⟩
      · simp [modifyEntity, h2, h3, hne']
      · simp [modifyEntity, h2, h3, hne', hne3]
      · intro old3 h3' hne3'
        injection h3' with hh
        exact absurd (hh ▸ hne3) hne3'
    · refine ⟨?_, ?_, ?_⟩
      · simp [modifyEntity, h2, h3, hne']
      · refine ⟨[MeshAction.setMesh3d svg.mesh, MeshAction.removeMesh o3],
          ?_, by simp⟩
        simp [modifyEntity, h2, h3, hne', hne3]
      · intro old3 h3' hne3'
        injection h3' with hh
        subst hh
        refine ⟨?_, ⟨[MeshAction.setMesh2d svg.mesh, MeshAction.removeMesh old],
          ?_, by simp⟩⟩
        · simp [modifyEntity, h2, h3, hne', hne3]
        · simp [modifyEntity, h2, h3, hne', hne3]

/-- Witness for C4: with old 2d mesh `⟨10⟩` and new generated mesh
`⟨11⟩`, the per-entity body installs `⟨11⟩` on the attachment. -/
theorem c4_witness :
    (modifyEntity ⟨"doc.svg", ⟨11⟩⟩ ⟨1, ⟨0⟩, some ⟨10⟩, none, false, none⟩
        [⟨10⟩, ⟨11⟩]).1.mesh2d = some ⟨11⟩ :=
  (c4_install_before_release ⟨"doc.svg", ⟨11⟩⟩
      ⟨1, ⟨0⟩, some ⟨10⟩, none, false, none⟩ [⟨10⟩, ⟨11⟩] ⟨10⟩
      (by decide) (by decide)).1

theorem goodEntity_of_svg {svgs : SvgAssets} {e : SvgEntity} {v : Svg}
    (hget : svgs.get e.svgHandle = some v)
    (h2 : e.mesh2d = none ∨ e.mesh2d = some v.mesh)
    (h3 : e.mesh3d = none ∨ e.mesh3d = some v.mesh) :
    goodEntity svgs e = true := by
  rw [goodEntity_iff]
  intro svg' hget'
  rw [hget] at hget'
  injection hget' with hh
  subst hh
  exact ⟨h2, h3⟩

theorem evolvesTo_refl (svgs : SvgAssets) (e : SvgEntity) : evolvesTo svgs e e :=
  ⟨rfl, rfl, rfl, rfl, Iff.rfl, Iff.rfl, Or.inl rfl⟩

theorem evolvesTo_trans {svgs : SvgAssets} {a b c : SvgEntity}
    (hab : evolvesTo svgs a b) (hbc : evolvesTo svgs b c) :
    evolvesTo svgs a c := by
  obtain ⟨i1, s1, f1, p1, m1, n1, g1⟩ := hab
  obtain ⟨i2, s2, f2, p2, m2, n2, g2⟩ := hbc
  refine ⟨i2.trans i1, s2.trans s1, f2.trans f1, p2.trans p1,
    m2.trans m1, n2.trans n1, ?_⟩
  rcases g2 with rfl | hg
  · exact g1
  · exact Or.inr hg

theorem goodEntity_mono {svgs : SvgAssets} {e e' : SvgEntity}
    (hev : evolvesTo svgs e e') (hg : goodEntity svgs e = true) :
    goodEntity svgs e' = true := by
  rcases hev.2.2.2.2.2.2 with rfl | hg'
  · exact hg
  · exact hg'

theorem forall₂_comp {α : Type} {R S T : α → α → Prop}
    (hT : ∀ a b c, R a b → S b c → T a c) :
    ∀ {l₁ l₂ l₃ : List α}, List.Forall₂ R l₁ l₂ → List.Forall₂ S l₂ l₃ →
      List.Forall₂ T l₁ l₃ := by
  intro l₁ l₂ l₃ h12
  induction h12 generalizing l₃ with
  | nil => intro h23; cases h23; exact List.Forall₂.nil
  | cons hab h' ih =>
    intro h23
    cases h23 with
    | cons hbc h'' => exact List.Forall₂.cons (hT _ _ _ hab hbc) (ih h'')

theorem forall₂_mem_right {α β : Type} {R : α → β → Prop}
    {l₁ : List α} {l₂ : List β} (hf : List.Forall₂ R l₁ l₂) :
    ∀ {b}, b ∈ l₂ → ∃ a ∈ l₁, R a b := by
  induction hf with
  | nil => intro b hb; simp at hb
  | cons hab h' ih =>
    intro b hb
    rcases List.mem_cons.mp hb with rfl | hb'
    · exact ⟨_, List.mem_cons_self .., hab⟩
    · obtain ⟨a, ha, har⟩ := ih hb'
      exact ⟨a, List.mem_cons_of_mem _ ha, har⟩

theorem forall₂_mem_left {α β : Type} {R : α → β → Prop}
    {l₁ : List α} {l₂ : List β} (hf : List.Forall₂ R l₁ l₂) :
    ∀ {a}, a ∈ l₁ → ∃ b ∈ l₂, R a b := by
  induction hf with
  | nil => intro a ha; simp at ha
  | cons hab h' ih =>
    intro a ha
    rcases List.mem_cons.mp ha with rfl | ha'
    · exact ⟨_, List.mem_cons_self .., hab⟩
    · obtain ⟨b, hb, hbr⟩ := ih ha'
      exact ⟨b, List.mem_cons_of_mem _ hb, hbr⟩

theorem modifyEntities_forall₂ {svgs : SvgAssets} {h : SvgHandle} {svg : Svg}
    (hget : svgs.get h = some svg) (es : List SvgEntity) :
    ∀ ms, List.Forall₂ (coveredStep svgs h) es (modifyEntities svg h es ms).1 := by
  induction es with
  | nil => intro ms; simp only [modifyEntities]; exact List.Forall₂.nil
  | cons e rest ih =>
    intro ms
    by_cases he : e.svgHandle = h
    · simp only [modifyEntities, he, if_true]
      have hf := modifyEntity_fields svg e ms
      have hgood : goodEntity svgs (modifyEntity svg e ms).1 = true := by
        apply goodEntity_of_svg (v := svg)
        · rw [hf.2.1, he]; exact hget
        · exact hf.2.2.2.2.1
        · exact hf.2.2.2.2.2.1
      exact List.Forall₂.cons
        ⟨⟨hf.1, hf.2.1, hf.2.2.1, hf.2.2.2.1, hf.2.2.2.2.2.2.1,
          hf.2.2.2.2.2.2.2, Or.inr hgood⟩, fun _ => hgood⟩ (ih _)
    · simp only [modifyEntities, he, if_false]
      exact List.Forall₂.cons
        ⟨evolvesTo_refl svgs e, fun heq => absurd heq he⟩ (ih _)

theorem applyEvent_covered {svgs : SvgAssets} {st st' : LinkerState}
    {hd : SvgHandle} {ev : AssetEvent}
    (hev : ev = .created hd ∨ ev = .modified hd)
    (hap : applyEvent svgs st ev = some st') :
    List.Forall₂ (coveredStep svgs hd) st.entities st'.entities := by
  rcases hev with rfl | rfl
  · simp only [applyEvent] at hap
    by_cases ha : st.entities.any (fun e => e.svgHandle = hd) = true
    · rw [if_pos ha] at hap
      cases hg : svgs.get hd with
      | none => rw [hg] at hap; exact absurd hap (by simp)
      | some svg =>
        rw [hg] at hap
        simp only [Option.some.injEq] at hap
        subst hap
        rw [List.forall₂_map_right_iff]
        apply List.forall₂_same.mpr
        intro e _
        show coveredStep svgs hd e (if e.svgHandle = hd then
          { e with mesh2d := e.mesh2d.map (fun _ => svg.mesh),
                   mesh3d := e.mesh3d.map (fun _ => svg.mesh) } else e)
        by_cases he : e.svgHandle = hd
        · rw [if_pos he]
          have hgood : goodEntity svgs
              { e with mesh2d := e.mesh2d.map (fun _ => svg.mesh),
                       mesh3d := e.mesh3d.map (fun _ => svg.mesh) } = true := by
            apply goodEntity_of_svg (v := svg)
            · show svgs.get e.svgHandle = some svg
              rw [he]; exact hg
            · show e.mesh2d.map (fun _ => svg.mesh) = none ∨
                e.mesh2d.map (fun _ => svg.mesh) = some svg.mesh
              cases e.mesh2d <;> simp
            · show e.mesh3d.map (fun _ => svg.mesh) = none ∨
                e.mesh3d.map (fun _ => svg.mesh) = some svg.mesh
              cases e.mesh3d <;> simp
          refine ⟨⟨rfl, rfl, rfl, rfl, ?_, ?_, Or.inr hgood⟩, fun _ => hgood⟩
          · show e.mesh2d.map (fun _ => svg.mesh) = none ↔ e.mesh2d = none
            cases e.mesh2d <;> simp
          · show e.mesh3d.map (fun _ => svg.mesh) = none ↔ e.mesh3d = none
            cases e.mesh3d <;> simp
        · rw [if_neg he]
          exact ⟨evolvesTo_refl svgs e, fun heq => absurd heq he⟩
    · rw [if_neg ha] at hap
      simp only [Option.some.injEq] at hap
      subst hap
      apply List.forall₂_same.mpr
      intro e he
      refine ⟨evolvesTo_refl svgs e, fun heq => ?_⟩
      exact absurd (List.any_eq_true.mpr ⟨e, he, decide_eq_true heq⟩) ha
  · simp only [applyEvent] at hap
    by_cases ha : st.entities.any (fun e => e.svgHandle = hd) = true
    · rw [if_pos ha] at hap
      cases hg : svgs.get hd with
      | none => rw [hg] at hap; exact absurd hap (by simp)
      | some svg =>
        rw [hg] at hap
        simp only [Option.some.injEq] at hap
        subst hap
        exact modifyEntities_forall₂ hg st.entities st.meshes
    · rw [if_neg ha] at hap
      simp only [Option.some.injEq] at hap
      subst hap
      apply List.forall₂_same.mpr
      intro e he
      refine ⟨evolvesTo_refl svgs e, fun heq => ?_⟩
      exact absurd (List.any_eq_true.mpr ⟨e, he, decide_eq_true heq⟩) ha

theorem applyEvent_evolves {svgs : SvgAssets} {st st' : LinkerState}
    {ev : AssetEvent} (hap : applyEvent svgs st ev = some st') :
    List.Forall₂ (evolvesTo svgs) st.entities st'.entities := by
  cases ev with
  | created h =>
    exact (applyEvent_covered (Or.inl rfl) hap).imp (fun _ _ hc => hc.1)
  | modified h =>
    exact (applyEvent_covered (Or.inr rfl) hap).imp (fun _ _ hc => hc.1)
  | removed h =>
    simp only [applyEvent, Option.some.injEq] at hap
    subst hap
    exact List.forall₂_same.mpr (fun e _ => evolvesTo_refl svgs e)

theorem processEvents_evolves {svgs : SvgAssets} :
    ∀ {es : List AssetEvent} {st st' : LinkerState},
      processEvents svgs es st = some st' →
      List.Forall₂ (evolvesTo svgs) st.entities st'.entities := by
  intro es
  induction es with
  | nil =>
    intro st st' h
    simp only [processEvents, Option.some.injEq] at h
    subst h
    exact List.forall₂_same.mpr (fun e _ => evolvesTo_refl svgs e)
  | cons ev rest ih =>
    intro st st' h
    simp only [processEvents] at h
    cases hap : applyEvent svgs st ev with
    | none => simp [hap] at h
    | some st₁ =>
      simp only [hap] at h
      exact forall₂_comp (R := evolvesTo svgs) (S := evolvesTo svgs)
        (T := evolvesTo svgs) (fun _ _ _ h1 h2 => evolvesTo_trans h1 h2)
        (applyEvent_evolves hap) (ih h)

theorem processEvents_covered {svgs : SvgAssets} {hd : SvgHandle} :
    ∀ {es : List AssetEvent} {st st' : LinkerState} {ev : AssetEvent},
      ev ∈ es → (ev = .created hd ∨ ev = .modified hd) →
      processEvents svgs es st = some st' →
      List.Forall₂ (coveredStep svgs hd) st.entities st'.entities := by
  intro es
  induction es with
  | nil => intro st st' ev hmem; simp at hmem
  | cons ev0 rest ih =>
    intro st st' ev hmem hev h
    simp only [processEvents] at h
    cases hap : applyEvent svgs st ev0 with
    | none => simp [hap] at h
    | some st₁ =>
      simp only [hap] at h
      rcases List.mem_cons.mp hmem with rfl | hmem'
      · exact forall₂_comp (R := coveredStep svgs hd) (S := evolvesTo svgs)
          (T := coveredStep svgs hd) (fun _ _ _ h1 h2 =>
          ⟨evolvesTo_trans h1.1 h2, fun heq => goodEntity_mono h2 (h1.2 heq)⟩)
          (applyEvent_covered hev hap) (processEvents_evolves h)
      · exact forall₂_comp (R := evolvesTo svgs) (S := coveredStep svgs hd)
          (T := coveredStep svgs hd) (fun _ _ _ h1 h2 =>
          ⟨evolvesTo_trans h1 h2.1, fun heq => h2.2 (h1.2.1.trans heq)⟩)
          (applyEvent_evolves hap) (ih hmem' hev h)

theorem applyEvent_roots {svgs : SvgAssets} {st st' : LinkerState}
    {ev : AssetEvent} (hap : applyEvent svgs st ev = some st') :
    ∀ i ∈ st.despawnRoots, i ∈ st'.despawnRoots := by
  cases ev with
  | created h =>
    simp only [applyEvent] at hap
    by_cases ha : st.entities.any (fun e => e.svgHandle = h) = true
    · rw [if_pos ha] at hap
      cases hg : svgs.get h with
      | none => rw [hg] at hap; exact absurd hap (by simp)
      | some svg =>
        rw [hg] at hap
        simp only [Option.some.injEq] at hap
        subst hap
        exact fun i hi => hi
    · rw [if_neg ha] at hap
      simp only [Option.some.injEq] at hap
      subst hap
      exact fun i hi => hi
  | modified h =>
    simp only [applyEvent] at hap
    by_cases ha : st.entities.any (fun e => e.svgHandle = h) = true
    · rw [if_pos ha] at hap
      cases hg : svgs.get h with
      | none => rw [hg] at hap; exact absurd hap (by simp)
      | some svg =>
        rw [hg] at hap
        simp only [Option.some.injEq] at hap
        subst hap
        exact fun i hi => hi
    · rw [if_neg ha] at hap
      simp only [Option.some.injEq] at hap
      subst hap
      exact fun i hi => hi
  | removed h =>
    simp only [applyEvent, Option.some.injEq] at hap
    subst hap
    exact fun i hi => List.mem_append.mpr (Or.inl hi)

theorem processEvents_roots {svgs : SvgAssets} :
    ∀ {es : List AssetEvent} {st st' : LinkerState},
      processEvents svgs es st = some st' →
      ∀ i ∈ st.despawnRoots, i ∈ st'.despawnRoots := by
  intro es
  induction es with
  | nil =>
    intro st st' h
    simp only [processEvents, Option.some.injEq] at h
    subst h
    exact fun i hi => hi
  | cons ev rest ih =>
    intro st st' h
    simp only [processEvents] at h
    cases hap : applyEvent svgs st ev with
    | none => simp [hap] at h
    | some st₁ =>
      simp only [hap] at h
      exact fun i hi => ih h i (applyEvent_roots hap i hi)

theorem processEvents_removed {svgs : SvgAssets} {hd : SvgHandle} :
    ∀ {es : List AssetEvent} {st st' : LinkerState},
      AssetEvent.removed hd ∈ es →
      processEvents svgs es st = some st' →
      ∀ e ∈ st.entities, e.svgHandle = hd → e.id ∈ st'.despawnRoots := by
  intro es
  induction es with
  | nil => intro st st' hmem; simp at hmem
  | cons ev0 rest ih =>
    intro st st' hmem h
    simp only [processEvents] at h
    cases hap : applyEvent svgs st ev0 with
    | none => simp [hap] at h
    | some st₁ =>
      simp only [hap] at h
      rcases List.mem_cons.mp hmem with heq0 | hmem'
      · intro e he heq
        have h1 : e.id ∈ st₁.despawnRoots := by
          rw [← heq0] at hap
          simp only [applyEvent, Option.some.injEq] at hap
          subst hap
          simp only [List.mem_append]
          exact Or.inr (List.mem_map.mpr
            ⟨e, List.mem_filter.mpr ⟨he, decide_eq_true heq⟩, rfl⟩)
        exact processEvents_roots h _ h1
      · intro e he heq
        obtain ⟨e₁, he₁, hrel⟩ := forall₂_mem_left (applyEvent_evolves hap) he
        have := ih hmem' h e₁ he₁ (hrel.2.1.trans heq)
        rwa [hrel.1] at this

theorem svgEntity_ext {a b : SvgEntity} (h1 : a.id = b.id)
    (h2 : a.svgHandle = b.svgHandle) (h3 : a.mesh2d = b.mesh2d)
    (h4 : a.mesh3d = b.mesh3d) (h5 : a.changed = b.changed)
    (h6 : a.parent = b.parent) : a = b := by
  cases a
  cases b
  simp_all

theorem setEntityMeshes_fields (svgs : SvgAssets) (e : SvgEntity) :
    (setEntityMeshes svgs e).id = e.id ∧
    (setEntityMeshes svgs e).svgHandle = e.svgHandle ∧
    (setEntityMeshes svgs e).changed = e.changed ∧
    (setEntityMeshes svgs e).parent = e.parent := by
  unfold setEntityMeshes
  by_cases hch : e.changed = true
  · rw [if_pos hch]
    cases hget : svgs.get e.svgHandle with
    | none => exact ⟨rfl, rfl, rfl, rfl⟩
    | some svg => exact ⟨rfl, rfl, rfl, rfl⟩
  · rw [if_neg hch]
    exact ⟨rfl, rfl, rfl, rfl⟩

theorem setEntityMeshes_none_iff (svgs : SvgAssets) (e : SvgEntity) :
    ((setEntityMeshes svgs e).mesh2d = none ↔ e.mesh2d = none) ∧
    ((setEntityMeshes svgs e).mesh3d = none ↔ e.mesh3d = none) := by
  unfold setEntityMeshes
  by_cases hch : e.changed = true
  · rw [if_pos hch]
    cases hget : svgs.get e.svgHandle with
    | none => exact ⟨Iff.rfl, Iff.rfl⟩
    | some svg =>
      constructor
      · show e.mesh2d.map (fun m => if m ≠ svg.mesh then svg.mesh else m) = none ↔
          e.mesh2d = none
        cases e.mesh2d <;> simp
      · show e.mesh3d.map (fun m => if m ≠ svg.mesh then svg.mesh else m) = none ↔
          e.mesh3d = none
        cases e.mesh3d <;> simp
  · rw [if_neg hch]
    exact ⟨Iff.rfl, Iff.rfl⟩

theorem setEntityMeshes_changed_good {svgs : SvgAssets} {e : SvgEntity}
    (hch : e.changed = true) :
    goodEntity svgs (setEntityMeshes svgs e) = true := by
  rw [goodEntity_iff]
  intro svg hget
  rw [(setEntityMeshes_fields svgs e).2.1] at hget
  unfold setEntityMeshes
  rw [if_pos hch, hget]
  constructor
  · show e.mesh2d.map (fun m => if m ≠ svg.mesh then svg.mesh else m) = none ∨
      e.mesh2d.map (fun m => if m ≠ svg.mesh then svg.mesh else m) = some svg.mesh
    rw [repoint_map]
    cases e.mesh2d <;> simp
  · show e.mesh3d.map (fun m => if m ≠ svg.mesh then svg.mesh else m) = none ∨
      e.mesh3d.map (fun m => if m ≠ svg.mesh then svg.mesh else m) = some svg.mesh
    rw [repoint_map]
    cases e.mesh3d <;> simp

theorem setEntityMeshes_good {svgs : SvgAssets} {e : SvgEntity}
    (hg : goodEntity svgs e = true) :
    goodEntity svgs (setEntityMeshes svgs e) = true := by
  by_cases hch : e.changed = true
  · exact setEntityMeshes_changed_good hch
  · unfold setEntityMeshes
    rw [if_neg hch]
    exact hg

theorem setEntityMeshes_nones {svgs : SvgAssets} {e : SvgEntity}
    (h2 : e.mesh2d = none) (h3 : e.mesh3d = none) :
    setEntityMeshes svgs e = e := by
  unfold setEntityMeshes
  by_cases hch : e.changed = true
  · rw [if_pos hch]
    cases hget : svgs.get e.svgHandle with
    | none => rfl
    | some svg =>
      cases e with
      | mk i s m2 m3 c p =>
        simp only at h2 h3
        subst h2
        subst h3
        rfl
  · rw [if_neg hch]

theorem covered_event_good {svgs : SvgAssets} {es : List AssetEvent}
    {st₀ st' : LinkerState} {ev : AssetEvent} {hd : SvgHandle}
    (hp : processEvents svgs es st₀ = some st')
    (hevmem : ev ∈ es)
    (hev : ev = .created hd ∨ ev = .modified hd)
    {e' : SvgEntity} (he' : e' ∈ st'.entities) (hhd : e'.svgHandle = hd) :
    goodEntity svgs e' = true := by
  obtain ⟨a, _, hcs⟩ := forall₂_mem_right (processEvents_covered hevmem hev hp) he'
  exact hcs.2 (hcs.1.2.1.symm.trans hhd)

/-- C9: neither binding pass ever inserts an attachment component. The
event loop transforms the entity list pointwise (position by position):
each entity of the post-state corresponds to the pre-state entity at
the same position, with each attachment component present after exactly
when it was present before, and an entity carrying neither attachment
is passed through literally unchanged. The late-binding body likewise
maps an entity without attachments to itself. -/
theorem c9_no_attachment_insertion (svgs : SvgAssets) (es : List AssetEvent)
    (st st' : LinkerState) (hrun : processEvents svgs es st = some st') :
    List.Forall₂ (fun e e' =>
        (e'.mesh2d = none ↔ e.mesh2d = none) ∧
        (e'.mesh3d = none ↔ e.mesh3d = none) ∧
        (e.mesh2d = none ∧ e.mesh3d = none → e' = e))
      st.entities st'.entities ∧
    (∀ (v : World) (e : SvgEntity), e.mesh2d = none → e.mesh3d = none →
      setEntityMeshes v.svgs e = e) := by
  constructor
  · refine (processEvents_evolves hrun).imp ?_
    intro e e' hrel
    obtain ⟨hid, hh, hch, hp, hm2, hm3, _⟩ := hrel
    refine ⟨hm2, hm3, ?_⟩
    rintro ⟨h2, h3⟩
    exact svgEntity_ext hid hh ((hm2.mpr h2).trans h2.symm)
      ((hm3.mpr h3).trans h3.symm) hch hp
  · intro v e h2 h3
    exact setEntityMeshes_nones h2 h3

/-- Witness for C9: a bare entity is untouched position by position by a
processed event batch, and the late-binding body leaves a bare entity
untouched. -/
theorem c9_witness :
    List.Forall₂ (fun e e' : SvgEntity =>
        (e'.mesh2d = none ↔ e.mesh2d = none) ∧
        (e'.mesh3d = none ↔ e.mesh3d = none) ∧
        (e.mesh2d = none ∧ e.mesh3d = none → e' = e))
      [⟨1, ⟨0⟩, none, none, false, none⟩]
      [⟨1, ⟨0⟩, none, none, false, none⟩] ∧
    setEntityMeshes (⟨[], [], []⟩ : World).svgs
        ⟨1, ⟨0⟩, none, none, true, none⟩ =
      ⟨1, ⟨0⟩, none, none, true, none⟩ :=
  ⟨(c9_no_attachment_insertion [] [AssetEvent.removed ⟨5⟩]
      ⟨[], [⟨1, ⟨0⟩, none, none, false, none⟩], []⟩
      ⟨[], [⟨1, ⟨0⟩, none, none, false, none⟩], []⟩ (by decide)).1,
    (c9_no_attachment_insertion [] [AssetEvent.removed ⟨5⟩]
      ⟨[], [⟨1, ⟨0⟩, none, none, false, none⟩], []⟩
      ⟨[], [⟨1, ⟨0⟩, none, none, false, none⟩], []⟩ (by decide)).2
      ⟨[], [], []⟩ ⟨1, ⟨0⟩, none, none, true, none⟩ rfl rfl⟩

/-- C7: one-tick preservation of the synchronization invariant. If every
entity entering a `Stage::SVG` tick is either already in sync, or was
flagged by `Changed<Handle<Svg>>`, or is covered by a queued asset event
for its handle (the "window" of the invariant), then after the tick —
with the two systems running in either order and the despawn commands
flushed — every surviving entity is in sync with the asset store: its
present attachments equal the current generated mesh of its loaded
document. -/
theorem c7_sync_invariant (w : World) (es : List AssetEvent) (lf : Bool)
    (w' : World)
    (hcov : ∀ e ∈ w.entities, goodEntity w.svgs e = true ∨ e.changed = true ∨
      ∃ ev ∈ es, ev.handle = e.svgHandle)
    (hrun : tick es lf w = some w') :
    ∀ e ∈ w'.entities, goodEntity w'.svgs e = true := by
  cases lf with
  | true =>
    unfold tick at hrun
    rw [if_pos rfl] at hrun
    cases hr : runLinker es w with
    | none => rw [hr] at hrun; exact absurd hrun (by simp)
    | some pr =>
      obtain ⟨w1, roots⟩ := pr
      rw [hr] at hrun
      simp only [Option.some.injEq] at hrun
      subst hrun
      unfold runLinker at hr
      cases hp : processEvents w.svgs es ⟨w.meshes, w.entities, []⟩ with
      | none => rw [hp] at hr; exact absurd hr (by simp)
      | some st' =>
        rw [hp] at hr
        simp only [Option.some.injEq, Prod.mk.injEq] at hr
        obtain ⟨hw1, hroots⟩ := hr
        subst hw1
        subst hroots
        intro e' he'
        obtain ⟨hmem, hnr⟩ := mem_applyDespawns he'
        have hmem' : e' ∈ st'.entities.map
            (setEntityMeshes w.svgs) := hmem
        obtain ⟨e₁, he₁, rfl⟩ := List.mem_map.mp hmem'
        have hev := processEvents_evolves hp
        obtain ⟨e0, he0, hrel⟩ := forall₂_mem_right hev he₁
        rcases hcov e0 he0 with hg | hch | ⟨ev, hevmem, hhd⟩
        · exact setEntityMeshes_good (goodEntity_mono hrel hg)
        · exact setEntityMeshes_changed_good (hrel.2.2.1.trans hch)
        · cases ev with
          | created hd =>
            simp only [AssetEvent.handle] at hhd
            exact setEntityMeshes_good (covered_event_good hp hevmem
              (Or.inl rfl) he₁ (hrel.2.1.trans hhd.symm))
          | modified hd =>
            simp only [AssetEvent.handle] at hhd
            exact setEntityMeshes_good (covered_event_good hp hevmem
              (Or.inr rfl) he₁ (hrel.2.1.trans hhd.symm))
          | removed hd =>
            simp only [AssetEvent.handle] at hhd
            have hroot : e0.id ∈ st'.despawnRoots :=
              processEvents_removed hevmem hp e0 he0 hhd.symm
            have hid : (setEntityMeshes w.svgs e₁).id ∈ st'.despawnRoots := by
              rw [(setEntityMeshes_fields w.svgs e₁).1, hrel.1]
              exact hroot
            exact absurd hid hnr
  | false =>
    unfold tick at hrun
    rw [if_neg Bool.false_ne_true] at hrun
    cases hr : runLinker es (set_svg_meshes w) with
    | none => rw [hr] at hrun; exact absurd hrun (by simp)
    | some pr =>
      obtain ⟨w2, roots⟩ := pr
      rw [hr] at hrun
      simp only [Option.some.injEq] at hrun
      subst hrun
      unfold runLinker at hr
      cases hp : processEvents (set_svg_meshes w).svgs es
          ⟨(set_svg_meshes w).meshes, (set_svg_meshes w).entities, []⟩ with
      | none => rw [hp] at hr; exact absurd hr (by simp)
      | some st' =>
        rw [hp] at hr
        simp only [Option.some.injEq, Prod.mk.injEq] at hr
        obtain ⟨hw2, hroots⟩ := hr
        subst hw2
        subst hroots
        intro e' he'
        obtain ⟨hmem, hnr⟩ := mem_applyDespawns he'
        have hev := processEvents_evolves hp
        obtain ⟨e₁, he₁, hrel⟩ := forall₂_mem_right hev hmem
        have he₁' : e₁ ∈ w.entities.map (setEntityMeshes w.svgs) := he₁
        obtain ⟨e0, he0, heq₁⟩ := List.mem_map.mp he₁'
        rcases hcov e0 he0 with hg | hch | ⟨ev, hevmem, hhd⟩
        · exact goodEntity_mono hrel (heq₁ ▸ setEntityMeshes_good hg)
        · exact goodEntity_mono hrel (heq₁ ▸ setEntityMeshes_changed_good hch)
        · cases ev with
          | created hd =>
            simp only [AssetEvent.handle] at hhd
            have h1 : e₁.svgHandle = e0.svgHandle := by
              rw [← heq₁]
              exact (setEntityMeshes_fields w.svgs e0).2.1
            exact covered_event_good hp hevmem (Or.inl rfl) hmem
              (hrel.2.1.trans (h1.trans hhd.symm))
          | modified hd =>
            simp only [AssetEvent.handle] at hhd
            have h1 : e₁.svgHandle = e0.svgHandle := by
              rw [← heq₁]
              exact (setEntityMeshes_fields w.svgs e0).2.1
            exact covered_event_good hp hevmem (Or.inr rfl) hmem
              (hrel.2.1.trans (h1.trans hhd.symm))
          | removed hd =>
            simp only [AssetEvent.handle] at hhd
            have h1 : e₁.svgHandle = e0.svgHandle := by
              rw [← heq₁]
              exact (setEntityMeshes_fields w.svgs e0).2.1
            have hroot : e₁.id ∈ st'.despawnRoots :=
              processEvents_removed hevmem hp e₁ he₁ (h1.trans hhd.symm)
            have hid : e'.id ∈ st'.despawnRoots := by
              rw [hrel.1]
              exact hroot
            exact absurd hid hnr

/-- Witness for C7 at a concrete in-sync world with an empty event
queue: the invariant holds after the tick. -/
theorem c7_witness :
    goodEntity (⟨[(⟨0⟩, ⟨"doc.svg", ⟨11⟩⟩)], [⟨11⟩],
        [⟨1, ⟨0⟩, some ⟨11⟩, none, false, none⟩]⟩ : World).svgs
      ⟨1, ⟨0⟩, some ⟨11⟩, none, false, none⟩ = true :=
  c7_sync_invariant
    ⟨[(⟨0⟩, ⟨"doc.svg", ⟨11⟩⟩)], [⟨11⟩],
      [⟨1, ⟨0⟩, some ⟨11⟩, none, false, none⟩]⟩ [] true
    ⟨[(⟨0⟩, ⟨"doc.svg", ⟨11⟩⟩)], [⟨11⟩],
      [⟨1, ⟨0⟩, some ⟨11⟩, none, false, none⟩]⟩
    (by decide) (by decide)
    ⟨1, ⟨0⟩, some ⟨11⟩, none, false, none⟩ (by decide)
